import Mathlib

/-!
Verification of `src/updatedashboardpermissions.py` (repository
`datadogmondash`): two scripts that poll the Datadog audit log for newly
created dashboards/monitors, resolve the owning team, and upsert a
restriction policy on the resource.

The shallow embedding below translates each Python function into a Lean
function.  Remote services (audit-log search, teams API, monitors API,
restriction-policy API) are passed in as explicit function arguments; a
call that may raise a Python exception is modelled with `PyResult`.
Python truthiness on strings (`if not user_id:`) is modelled explicitly:
`None` and the empty string are falsy.
-/

namespace DatadogMonDash

/-- Result of a Python call that may raise: `ok a` is a normal return,
`exn msg` is a raised exception carrying its message. -/
inductive PyResult (α : Type) where
  | ok (a : α)
  | exn (msg : String)
  deriving DecidableEq

/-- One audit-log event.  The Python code reads
`event.attributes.attributes["asset"]["id"]`; that nested access is
modelled as the single field `assetId`. -/
structure AuditEvent where
  assetId : String
  deriving DecidableEq

/-- `AuditLogsSort` enum values used by the scripts. -/
inductive AuditLogsSort where
  | TIMESTAMP_ASCENDING
  | TIMESTAMP_DESCENDING
  deriving DecidableEq

/-- `AuditLogsQueryFilter(_from=..., query=..., to=...)`. -/
structure AuditLogsQueryFilter where
  _from : String
  query : String
  «to» : String
  deriving DecidableEq

/-- `AuditLogsQueryOptions(time_offset=..., timezone=...)`. -/
structure AuditLogsQueryOptions where
  time_offset : Int
  timezone : String
  deriving DecidableEq

/-- `AuditLogsQueryPageOptions(limit=..., cursor=...)`. -/
structure AuditLogsQueryPageOptions where
  limit : Nat
  cursor : Option String
  deriving DecidableEq

/-- `AuditLogsSearchEventsRequest`; fields left out by a call site are
`none` (the client defaults). -/
structure AuditLogsSearchEventsRequest where
  filter : AuditLogsQueryFilter
  options : Option AuditLogsQueryOptions
  page : Option AuditLogsQueryPageOptions
  sort : Option AuditLogsSort
  deriving DecidableEq

/-- `response.meta.page` of an audit-log search response. -/
structure AuditLogsResponsePage where
  after : Option String
  deriving DecidableEq

/-- `response.meta` of an audit-log search response. -/
structure AuditLogsResponseMeta where
  page : Option AuditLogsResponsePage
  deriving DecidableEq

/-- An audit-log search response: `data` (events) and optional `meta`. -/
structure AuditLogsSearchEventsResponse where
  data : List AuditEvent
  meta : Option AuditLogsResponseMeta
  deriving DecidableEq

/-- The request the dashboard change detector builds on every loop
iteration (source lines 35-50): fixed one-minute window, fixed query,
GMT, page limit 10, cursor = the token from the previous response. -/
def dashboardSearchRequest (cursor : Option String) : AuditLogsSearchEventsRequest :=
  { filter := { _from := "now-1m", query := "@evt.name:Dashboard AND @action:created", «to» := "now" }
    options := some { time_offset := 0, timezone := "GMT" }
    page := some { limit := 10, cursor := cursor }
    sort := some AuditLogsSort.TIMESTAMP_ASCENDING }

/-- The Python cursor extraction
`response.meta.page.after if response.meta and response.meta.page and
response.meta.page.after else None` (source lines 59-63).  Python
truthiness: a missing `meta`, a missing `page`, a missing `after` and an
empty-string `after` all yield `None`. -/
def extractCursor (r : AuditLogsSearchEventsResponse) : Option String :=
  match r.meta with
  | none => none
  | some m =>
    match m.page with
    | none => none
    | some pg =>
      match pg.after with
      | none => none
      | some a => if a = "" then none else some a

/-- The `while True` pagination loop of `get_dashboards_created_last_minute`
(source lines 34-66), made total with a fuel parameter: `none` means the
fuel ran out before the loop broke.  Besides the accumulated asset ids
(`acc`, the variable `dashboard_ids`) the loop records the trace of
requests it issues (`reqs`), so that theorems can speak about which pages
were requested with which cursor. -/
def searchLoop (svc : AuditLogsSearchEventsRequest → AuditLogsSearchEventsResponse) :
    Nat → Option String → List String → List AuditLogsSearchEventsRequest →
    Option (List String × List AuditLogsSearchEventsRequest)
  | 0, _, _, _ => none
  | fuel + 1, tok, acc, reqs =>
    let req := dashboardSearchRequest tok
    let resp := svc req
    let acc' := acc ++ resp.data.map AuditEvent.assetId
    let reqs' := reqs ++ [req]
    match extractCursor resp with
    | none => some (acc', reqs')
    | some t => searchLoop svc fuel (some t) acc' reqs'

/-- `get_dashboards_created_last_minute` (source lines 16-68): run the
pagination loop from `next_page_token = None` with empty accumulator and
return the collected dashboard ids. -/
def get_dashboards_created_last_minute
    (svc : AuditLogsSearchEventsRequest → AuditLogsSearchEventsResponse) (fuel : Nat) :
    Option (List String) :=
  (searchLoop svc fuel none [] []).map Prod.fst

/-- The asset ids a response contributes:
`[event.attributes.attributes["asset"]["id"] for event in response.data]`. -/
def pageIds (r : AuditLogsSearchEventsResponse) : List String :=
  r.data.map AuditEvent.assetId

/-- `svc` serves the chain of responses `ps` when queried starting from
cursor token `tok`: each response is returned for the request built from
the cursor of its predecessor, and only the last response of the chain
may carry no (truthy) cursor. -/
def ServesChain (svc : AuditLogsSearchEventsRequest → AuditLogsSearchEventsResponse) :
    Option String → List AuditLogsSearchEventsResponse → Prop
  | _, [] => True
  | tok, p :: rest =>
    svc (dashboardSearchRequest tok) = p ∧
      ((extractCursor p = none ∧ rest = []) ∨
       (∃ t, extractCursor p = some t ∧ ServesChain svc (some t) rest))

/-- The cursor the pagination loop would pass to its next request after
the response obtained from token `tok`. -/
def nextTok (svc : AuditLogsSearchEventsRequest → AuditLogsSearchEventsResponse)
    (tok : Option String) : Option String :=
  extractCursor (svc (dashboardSearchRequest tok))

/-- The token reached after `n` further loop iterations from `tok`. -/
def iterFrom (svc : AuditLogsSearchEventsRequest → AuditLogsSearchEventsResponse) :
    Nat → Option String → Option String
  | 0, tok => tok
  | n + 1, tok => iterFrom svc n (nextTok svc tok)

/-! ### Monitor change detector -/

/-- The single request `get_monitors_created_last_minute` builds
(source lines 228-242): one-minute window, monitor query, GMT, page
limit 10, no cursor. -/
def monitorSearchRequest : AuditLogsSearchEventsRequest :=
  { filter := { _from := "now-1m", query := "@evt.name:Monitor AND @action:created", «to» := "now" }
    options := some { time_offset := 0, timezone := "GMT" }
    page := some { limit := 10, cursor := none }
    sort := some AuditLogsSort.TIMESTAMP_ASCENDING }

/-- `get_monitors_created_last_minute` (source lines 221-256): a single
audit-log search, no loop; returns the asset ids of the one response. -/
def get_monitors_created_last_minute
    (svc : AuditLogsSearchEventsRequest → AuditLogsSearchEventsResponse) : List String :=
  (svc monitorSearchRequest).data.map AuditEvent.assetId

/-- The requests `get_monitors_created_last_minute` issues: exactly the
one search above (the function body contains a single
`search_audit_logs` call and no loop). -/
def getMonitorsTrace
    (_svc : AuditLogsSearchEventsRequest → AuditLogsSearchEventsResponse) :
    List AuditLogsSearchEventsRequest :=
  [monitorSearchRequest]

/-- An audit-log service backed by a fixed event list that honours the
page limit of the request: it returns the first `limit` events and a
cursor exactly when events remain beyond the limit.  Used to state what
a single limit-10 page can and cannot see. -/
def limitedAuditService (events : List AuditEvent) :
    AuditLogsSearchEventsRequest → AuditLogsSearchEventsResponse :=
  fun req =>
    match req.page with
    | none => { data := events, meta := none }
    | some pg =>
      { data := events.take pg.limit
        meta :=
          if pg.limit < events.length then
            some { page := some { after := some "next-cursor" } }
          else
            some { page := some { after := none } } }

/-! ### Team directory lookups -/

/-- A team record as read by the scripts: only `id` is used (plus a name
for the directory search). -/
structure Team where
  id : String
  name : String
  deriving DecidableEq

/-- `get_team_uuid_by_user_id` (source lines 100-123).  The membership
listing `get_user_memberships(user_uuid=user_id)` is the argument
`get_user_memberships`; the function returns the first team id of the
response, falls off the end (returning `None`) when the list is empty,
and converts any raised exception to a logged `None`. -/
def get_team_uuid_by_user_id (get_user_memberships : String → PyResult (List Team))
    (user_id : String) : Option String :=
  match get_user_memberships user_id with
  | PyResult.exn _ => none
  | PyResult.ok teams =>
    match teams with
    | [] => none
    | t :: _ => some t.id

/-- `get_team_uuid_by_name` (source lines 281-304).  The directory search
`list_teams(filter_keyword=team_name)` is the argument `list_teams`; the
function returns the first matching team id, `None` when no team
matches, and converts any raised exception to a logged `None`. -/
def get_team_uuid_by_name (list_teams : String → PyResult (List Team))
    (team_name : String) : Option String :=
  match list_teams team_name with
  | PyResult.exn _ => none
  | PyResult.ok teams =>
    match teams with
    | [] => none
    | t :: _ => some t.id

/-! ### Monitor tag parsing -/

/-- Python `"...".split(":")` on a character list: split at every colon,
keeping empty pieces, so `"" ↦ [""]`, `"a:" ↦ ["a", ""]`,
`"a:b:c" ↦ ["a", "b", "c"]`. -/
def pySplitList : List Char → List String
  | [] => [""]
  | c :: cs =>
    if c = ':' then "" :: pySplitList cs
    else
      match pySplitList cs with
      | [] => [String.mk [c]]
      | h :: t => String.mk (c :: h.data) :: t

/-- Python `item.split(":")`. -/
def pySplitColon (s : String) : List String := pySplitList s.data

/-- The dict comprehension
`{item.split(":")[0]: item.split(":")[1] for item in response.tags}`
(source line 277), evaluated left to right: an item whose split has no
index 1 (no colon in the tag) raises an IndexError; otherwise the pair
(piece 0, piece 1) is recorded.  A later pair with the same key
overwrites an earlier one, as in a Python dict. -/
def buildTagDict : List String → PyResult (List (String × String))
  | [] => PyResult.ok []
  | item :: rest =>
    match pySplitColon item with
    | [] => PyResult.exn "IndexError"
    | [_] => PyResult.exn "IndexError"
    | k :: v :: _ =>
      match buildTagDict rest with
      | PyResult.exn e => PyResult.exn e
      | PyResult.ok d => PyResult.ok ((k, v) :: d)

/-- Python dict lookup on the association list built left to right with
overwrite: the value of the last pair carrying the key wins; a missing
key raises a KeyError. -/
def pyDictGet (d : List (String × String)) (key : String) : PyResult String :=
  match d.foldl (fun acc kv => if kv.fst = key then some kv.snd else acc) none with
  | some v => PyResult.ok v
  | none => PyResult.exn "KeyError"

/-- `get_monitor_team` (source lines 259-278): fetch the monitor, split
every tag at every colon into a dict of first piece to second piece, and
return the entry under key `team`.  The metadata fetch is abstracted to
the tag list it returns. -/
def get_monitor_team (tags : List String) : PyResult String :=
  match buildTagDict tags with
  | PyResult.exn e => PyResult.exn e
  | PyResult.ok d => pyDictGet d "team"

/-! ### Permission writer -/

/-- One `RestrictionPolicyBinding(relation=..., principals=[...])`. -/
structure RestrictionPolicyBinding where
  relation : String
  principals : List String
  deriving DecidableEq

/-- `RestrictionPolicyAttributes(bindings=[...])`. -/
structure RestrictionPolicyAttributes where
  bindings : List RestrictionPolicyBinding
  deriving DecidableEq

/-- `RestrictionPolicy(id=..., type=..., attributes=...)`; the `type`
field is always the enum value `RESTRICTION_POLICY`, kept as its wire
string. -/
structure RestrictionPolicy where
  id : String
  type : String
  attributes : RestrictionPolicyAttributes
  deriving DecidableEq

/-- `RestrictionPolicyUpdateRequest(data=...)`. -/
structure RestrictionPolicyUpdateRequest where
  data : RestrictionPolicy
  deriving DecidableEq

/-- `set_dashboard_permissions` (source lines 126-168): the resource id
and body handed to `update_restriction_policy`.  The only side effect of
the Python function is this single upsert call, so the function is
modelled as the pair (resource id, request body) it sends. -/
def set_dashboard_permissions (team_uuid dashboard_id : String) :
    String × RestrictionPolicyUpdateRequest :=
  ("dashboard:" ++ dashboard_id,
   { data :=
      { id := "dashboard:" ++ dashboard_id
        type := "restriction_policy"
        attributes :=
          { bindings :=
              [ { relation := "editor"
                  principals :=
                    [ "team:" ++ team_uuid
                    , "role:e5091040-1d03-11ef-9dbc-da7ad0900005" ] }
              , { relation := "viewer"
                  principals :=
                    [ "org:e4f8bb8c-1d03-11ef-9b95-da7ad0900005" ] } ] } } })

/-- `set_monitor_permissions` (source lines 307-348): same shape with the
`monitor:` prefix.  `monitor_id` stands for the Python `str(monitor_id)`. -/
def set_monitor_permissions (team_uuid monitor_id : String) :
    String × RestrictionPolicyUpdateRequest :=
  ("monitor:" ++ monitor_id,
   { data :=
      { id := "monitor:" ++ monitor_id
        type := "restriction_policy"
        attributes :=
          { bindings :=
              [ { relation := "editor"
                  principals :=
                    [ "team:" ++ team_uuid
                    , "role:e5091040-1d03-11ef-9dbc-da7ad0900005" ] }
              , { relation := "viewer"
                  principals :=
                    [ "org:e4f8bb8c-1d03-11ef-9b95-da7ad0900005" ] } ] } } })

/-- Modelled from the spec: the restriction-policy service itself is not
part of this repository; section 3 of the design document states that an
upsert is a full replace of the policy stored under the resource id, not
a merge.  The policy store is a map from resource id to the stored
policy. -/
def upsertPolicy (store : String → Option RestrictionPolicy)
    (resource_id : String) (body : RestrictionPolicyUpdateRequest) :
    String → Option RestrictionPolicy :=
  fun k => if k = resource_id then some body.data else store k

/-! ### Orchestrators

Each `lambda_handler` is modelled by the trace of remote calls it makes,
with the downstream stages passed in as oracles.  A stage that may raise
returns a `PyResult`; `get_team_uuid_by_name` and
`get_team_uuid_by_user_id` catch their own exceptions (see above), so
their oracles return plain options. -/

/-- One remote call made by an orchestrator. -/
inductive Call where
  | creatorLookup (dashboard_id : String)
  | teamByUser (user_id : String)
  | monitorTeamLookup (monitor_id : String)
  | teamByName (team_name : String)
  | permWrite (team_uuid : String) (resource_id : String)
  deriving DecidableEq

/-- The body of the dashboard per-resource loop (source lines 178-194)
for one dashboard id, inside its own `try`/`except`: look up the
creator, skip on a falsy user id, look up the team, skip on a falsy team
uuid, write permissions.  An exception from any stage is caught by the
per-resource handler and ends only this id.  Python truthiness: `None`
and the empty string are both skipped by `if not user_id:` /
`if not team_uuid:`. -/
def processDashboard (creator : String → PyResult (Option String))
    (teamOfUser : String → PyResult (Option String))
    (writer : String → String → PyResult Unit) (dashboard_id : String) : List Call :=
  Call.creatorLookup dashboard_id ::
    match creator dashboard_id with
    | PyResult.exn _ => []
    | PyResult.ok none => []
    | PyResult.ok (some user_id) =>
      if user_id = "" then []
      else
        Call.teamByUser user_id ::
          match teamOfUser user_id with
          | PyResult.exn _ => []
          | PyResult.ok none => []
          | PyResult.ok (some team_uuid) =>
            if team_uuid = "" then []
            else
              Call.permWrite team_uuid dashboard_id ::
                match writer team_uuid dashboard_id with
                | PyResult.exn _ => []
                | PyResult.ok _ => []

/-- The dashboard `lambda_handler` (source lines 171-198): fetch the
dashboard ids (an exception there is caught at the top level and ends
the run), then process each id independently; per-resource exceptions
are caught inside the loop, so every id contributes its own trace. -/
def lambda_handler_dashboard (fetch : PyResult (List String))
    (creator : String → PyResult (Option String))
    (teamOfUser : String → PyResult (Option String))
    (writer : String → String → PyResult Unit) : List Call :=
  match fetch with
  | PyResult.exn _ => []
  | PyResult.ok ids => (ids.map (processDashboard creator teamOfUser writer)).flatten

/-- The monitor per-resource loop (source lines 358-364).  Unlike the
dashboard loop there is no `try`/`except` inside the loop: an exception
raised by `get_monitor_team` or `set_monitor_permissions` escapes the
`for` loop to the top-level handler, so the remaining monitor ids are
not processed.  `get_team_uuid_by_name` catches its own exceptions and
is modelled as returning an option; `if team_uuid:` treats `None` and
the empty string as falsy. -/
def monitorLoop (teamTag : String → PyResult String)
    (teamByName : String → Option String)
    (writer : String → String → PyResult Unit) : List String → List Call
  | [] => []
  | monitor_id :: rest =>
    Call.monitorTeamLookup monitor_id ::
      match teamTag monitor_id with
      | PyResult.exn _ => []
      | PyResult.ok team_name =>
        Call.teamByName team_name ::
          match teamByName team_name with
          | none => monitorLoop teamTag teamByName writer rest
          | some team_uuid =>
            if team_uuid = "" then monitorLoop teamTag teamByName writer rest
            else
              Call.permWrite team_uuid monitor_id ::
                match writer team_uuid monitor_id with
                | PyResult.exn _ => []
                | PyResult.ok _ => monitorLoop teamTag teamByName writer rest

/-- The monitor `lambda_handler` (source lines 351-368): fetch the
monitor ids, then run the per-resource loop; the only `except` is the
top-level one. -/
def lambda_handler_monitor (fetch : PyResult (List String))
    (teamTag : String → PyResult String)
    (teamByName : String → Option String)
    (writer : String → String → PyResult Unit) : List Call :=
  match fetch with
  | PyResult.exn _ => []
  | PyResult.ok ids => monitorLoop teamTag teamByName writer ids

/-! ## Theorems -/

/-- C5: for every team id `T` and resource id `R`, the permission writer
sends the policy under resource id `dashboard:R` (resp. `monitor:R`),
gives the policy that same id, and the policy holds exactly two
bindings: relation `editor` with principals `team:T` and the fixed role
reference, and relation `viewer` with the fixed organization
reference. -/
theorem permission_writer_policy_shape (T R : String) :
    ((set_dashboard_permissions T R).1 = "dashboard:" ++ R ∧
     (set_dashboard_permissions T R).2.data.id = "dashboard:" ++ R ∧
     (set_dashboard_permissions T R).2.data.attributes.bindings =
       [ { relation := "editor"
           principals := ["team:" ++ T, "role:e5091040-1d03-11ef-9dbc-da7ad0900005"] }
       , { relation := "viewer"
           principals := ["org:e4f8bb8c-1d03-11ef-9b95-da7ad0900005"] } ]) ∧
    ((set_monitor_permissions T R).1 = "monitor:" ++ R ∧
     (set_monitor_permissions T R).2.data.id = "monitor:" ++ R ∧
     (set_monitor_permissions T R).2.data.attributes.bindings =
       [ { relation := "editor"
           principals := ["team:" ++ T, "role:e5091040-1d03-11ef-9dbc-da7ad0900005"] }
       , { relation := "viewer"
           principals := ["org:e4f8bb8c-1d03-11ef-9b95-da7ad0900005"] } ]) :=
  ⟨⟨rfl, rfl, rfl⟩, ⟨rfl, rfl, rfl⟩⟩

/-- C6: the permission write is idempotent.  The request body is a pure
function of the team id and resource id, and under the full-replace
upsert semantics of the restriction-policy service, writing the same
policy twice leaves the same store as writing it once, for both
pipelines. -/
theorem permission_writer_idempotent (T R : String)
    (store : String → Option RestrictionPolicy) :
    upsertPolicy
        (upsertPolicy store (set_dashboard_permissions T R).1 (set_dashboard_permissions T R).2)
        (set_dashboard_permissions T R).1 (set_dashboard_permissions T R).2 =
      upsertPolicy store (set_dashboard_permissions T R).1 (set_dashboard_permissions T R).2 ∧
    upsertPolicy
        (upsertPolicy store (set_monitor_permissions T R).1 (set_monitor_permissions T R).2)
        (set_monitor_permissions T R).1 (set_monitor_permissions T R).2 =
      upsertPolicy store (set_monitor_permissions T R).1 (set_monitor_permissions T R).2 := by
  constructor
  · funext k
    by_cases h : k = (set_dashboard_permissions T R).1 <;> simp [upsertPolicy, h]
  · funext k
    by_cases h : k = (set_monitor_permissions T R).1 <;> simp [upsertPolicy, h]

/-- C8: team lookup by name returns the id of the first team of the
directory search result, `none` when the result list is empty, and
converts any exception raised by the lookup into `none`. -/
theorem team_lookup_by_name_spec (list_teams : String → PyResult (List Team))
    (team_name : String) :
    (∀ t ts, list_teams team_name = PyResult.ok (t :: ts) →
      get_team_uuid_by_name list_teams team_name = some t.id) ∧
    (list_teams team_name = PyResult.ok [] →
      get_team_uuid_by_name list_teams team_name = none) ∧
    (∀ e, list_teams team_name = PyResult.exn e →
      get_team_uuid_by_name list_teams team_name = none) := by
  refine ⟨?_, ?_, ?_⟩ <;> intros <;> simp [get_team_uuid_by_name, *]

/-- Witness for C8 at concrete directory services. -/
theorem team_lookup_by_name_spec_witness :
    get_team_uuid_by_name (fun _ => PyResult.ok [⟨"t1", "alpha"⟩, ⟨"t2", "beta"⟩]) "alpha" =
      some "t1" ∧
    get_team_uuid_by_name (fun _ => PyResult.ok []) "alpha" = none ∧
    get_team_uuid_by_name (fun _ => PyResult.exn "boom") "alpha" = none :=
  ⟨(team_lookup_by_name_spec (fun _ => PyResult.ok [⟨"t1", "alpha"⟩, ⟨"t2", "beta"⟩])
      "alpha").1 ⟨"t1", "alpha"⟩ [⟨"t2", "beta"⟩] rfl,
   (team_lookup_by_name_spec (fun _ => PyResult.ok []) "alpha").2.1 rfl,
   (team_lookup_by_name_spec (fun _ => PyResult.exn "boom") "alpha").2.2 "boom" rfl⟩

/-- C10: team lookup by user id has the same non-fatal shape as the
by-name variant: any exception from the membership listing becomes
`none`, and an empty membership list falls off the end of the function,
returning `none`; a non-empty list yields the first team id. -/
theorem team_lookup_by_user_spec (get_user_memberships : String → PyResult (List Team))
    (user_id : String) :
    (∀ e, get_user_memberships user_id = PyResult.exn e →
      get_team_uuid_by_user_id get_user_memberships user_id = none) ∧
    (get_user_memberships user_id = PyResult.ok [] →
      get_team_uuid_by_user_id get_user_memberships user_id = none) ∧
    (∀ t ts, get_user_memberships user_id = PyResult.ok (t :: ts) →
      get_team_uuid_by_user_id get_user_memberships user_id = some t.id) := by
  refine ⟨?_, ?_, ?_⟩ <;> intros <;> simp [get_team_uuid_by_user_id, *]

/-- Witness for C10 at concrete membership services. -/
theorem team_lookup_by_user_spec_witness :
    get_team_uuid_by_user_id (fun _ => PyResult.exn "boom") "u1" = none ∧
    get_team_uuid_by_user_id (fun _ => PyResult.ok []) "u1" = none ∧
    get_team_uuid_by_user_id (fun _ => PyResult.ok [⟨"t9", "gamma"⟩]) "u1" = some "t9" :=
  ⟨(team_lookup_by_user_spec (fun _ => PyResult.exn "boom") "u1").1 "boom" rfl,
   (team_lookup_by_user_spec (fun _ => PyResult.ok []) "u1").2.1 rfl,
   (team_lookup_by_user_spec (fun _ => PyResult.ok [⟨"t9", "gamma"⟩]) "u1").2.2
     ⟨"t9", "gamma"⟩ [] rfl⟩

/-- A character list without a colon splits into the single piece made
of the whole list. -/
theorem pySplitList_no_colon (cs : List Char) (h : ':' ∉ cs) :
    pySplitList cs = [String.mk cs] := by
  induction cs with
  | nil => rfl
  | cons c cs ih =>
    have hc : c ≠ ':' := fun hc => h (hc ▸ List.mem_cons_self c cs)
    have hcs : ':' ∉ cs := fun hm => h (List.mem_cons_of_mem c hm)
    simp [pySplitList, hc, ih hcs]

/-- If any tag of the list has no colon, the tag-dict comprehension
raises an IndexError. -/
theorem buildTagDict_exn_of_no_colon (tags : List String) (t : String)
    (ht : t ∈ tags) (hnc : ':' ∉ t.data) :
    buildTagDict tags = PyResult.exn "IndexError" := by
  induction tags with
  | nil => cases ht
  | cons a rest ih =>
    rcases List.mem_cons.mp ht with rfl | hmem
    · simp [buildTagDict, pySplitColon, pySplitList_no_colon _ hnc]
    · cases hs : pySplitColon a with
      | nil => simp [buildTagDict, hs]
      | cons k tl =>
        cases tl with
        | nil => simp [buildTagDict, hs]
        | cons v tl2 => simp [buildTagDict, hs, ih hmem]

/-- C9: `get_monitor_team` splits every tag at every colon and keeps the
piece at index 1, so a tag list containing a tag with no colon raises an
IndexError; a tag value with an inner colon such as `team:a:b` is
truncated to the piece between the first and second colon; and when
several tags share the key `team`, the last one wins. -/
theorem monitor_tag_parsing_behavior :
    (∀ tags t, t ∈ tags → ':' ∉ t.data →
      get_monitor_team tags = PyResult.exn "IndexError") ∧
    get_monitor_team ["env:prod", "team:a:b"] = PyResult.ok "a" ∧
    get_monitor_team ["team:x", "env:prod", "team:y"] = PyResult.ok "y" := by
  refine ⟨?_, by decide, by decide⟩
  intro tags t ht hnc
  simp [get_monitor_team, buildTagDict_exn_of_no_colon tags t ht hnc]

/-- Witness for C9: a concrete tag list whose tag has no colon makes
`get_monitor_team` raise. -/
theorem monitor_tag_parsing_behavior_witness :
    get_monitor_team ["nocolon"] = PyResult.exn "IndexError" :=
  monitor_tag_parsing_behavior.1 ["nocolon"] "nocolon" (by decide) (by decide)

/-- C4: the monitor change detector issues exactly one audit-log search,
with page limit 10 and no cursor; against a service honouring the
limit it returns the first 10 asset ids, so more than 10 created
monitors are silently truncated; zero matching events give the empty
list, not an error. -/
theorem monitor_detector_single_page (events : List AuditEvent) :
    getMonitorsTrace (limitedAuditService events) = [monitorSearchRequest] ∧
    monitorSearchRequest.page = some { limit := 10, cursor := none } ∧
    get_monitors_created_last_minute (limitedAuditService events) =
      (events.take 10).map AuditEvent.assetId ∧
    (events = [] → get_monitors_created_last_minute (limitedAuditService events) = []) ∧
    (10 < events.length →
      (get_monitors_created_last_minute (limitedAuditService events)).length <
        events.length) := by
  refine ⟨rfl, rfl, rfl, ?_, ?_⟩
  · intro h
    subst h
    rfl
  · intro h
    have hv : get_monitors_created_last_minute (limitedAuditService events) =
        (events.take 10).map AuditEvent.assetId := rfl
    rw [hv, List.length_map, List.length_take]
    omega

/-- Witness for C4: with eleven events the detector returns strictly
fewer ids than exist; with no events it returns the empty list. -/
theorem monitor_detector_single_page_witness :
    (get_monitors_created_last_minute (limitedAuditService
        [⟨"1"⟩, ⟨"2"⟩, ⟨"3"⟩, ⟨"4"⟩, ⟨"5"⟩, ⟨"6"⟩, ⟨"7"⟩, ⟨"8"⟩, ⟨"9"⟩, ⟨"10"⟩, ⟨"11"⟩])).length <
      ([⟨"1"⟩, ⟨"2"⟩, ⟨"3"⟩, ⟨"4"⟩, ⟨"5"⟩, ⟨"6"⟩, ⟨"7"⟩, ⟨"8"⟩, ⟨"9"⟩, ⟨"10"⟩, ⟨"11"⟩] :
        List AuditEvent).length ∧
    get_monitors_created_last_minute (limitedAuditService []) = [] :=
  ⟨(monitor_detector_single_page
      [⟨"1"⟩, ⟨"2"⟩, ⟨"3"⟩, ⟨"4"⟩, ⟨"5"⟩, ⟨"6"⟩, ⟨"7"⟩, ⟨"8"⟩, ⟨"9"⟩, ⟨"10"⟩, ⟨"11"⟩]).2.2.2.2
      (by decide),
   (monitor_detector_single_page []).2.2.2.1 rfl⟩

/-- Running the pagination loop with exactly as much fuel as a served
chain has pages consumes the whole chain: every page's asset ids are
appended in order, and one request is issued per page, the first with
the starting token and each later one with the cursor extracted from
the previous response. -/
theorem searchLoop_serves_chain
    (svc : AuditLogsSearchEventsRequest → AuditLogsSearchEventsResponse)
    (ps : List AuditLogsSearchEventsResponse) :
    ∀ tok acc reqs, ServesChain svc tok ps →
      (∀ l, ps.getLast? = some l → extractCursor l = none) →
      ps ≠ [] →
      searchLoop svc ps.length tok acc reqs =
        some (acc ++ (ps.map pageIds).flatten,
              reqs ++ (tok :: ps.dropLast.map extractCursor).map dashboardSearchRequest) := by
  induction ps with
  | nil => intro tok acc reqs _ _ hne; exact absurd rfl hne
  | cons p rest ih =>
    intro tok acc reqs hchain hlast _
    rw [ServesChain] at hchain
    obtain ⟨hsvc, hor⟩ := hchain
    rcases hor with ⟨hc, rfl⟩ | ⟨t, hc, hrest⟩
    · simp [searchLoop, hsvc, hc, pageIds]
    · cases rest with
      | nil =>
        have h0 : extractCursor p = none := hlast p rfl
        rw [h0] at hc
        cases hc
      | cons q rs =>
        have hlast' : ∀ l, (q :: rs).getLast? = some l → extractCursor l = none := by
          intro l hl
          exact hlast l (by rw [List.getLast?_cons_cons]; exact hl)
        have hrec := ih (some t) (acc ++ pageIds p)
          (reqs ++ [dashboardSearchRequest tok]) hrest hlast' (by simp)
        have hstep : searchLoop svc ((q :: rs).length + 1) tok acc reqs =
            searchLoop svc (q :: rs).length (some t) (acc ++ pageIds p)
              (reqs ++ [dashboardSearchRequest tok]) := by
          simp [searchLoop, hsvc, hc, pageIds]
        rw [List.length_cons, hstep, hrec]
        simp [hc, List.append_assoc, pageIds]

/-- C2: for every audit-log response chain of P pages linked by next
cursors, the dashboard change detector run with fuel P returns all
asset ids exactly once, in page order with order preserved inside each
page; it issues one request per page, the first with no cursor and each
later one with the cursor of the previous response, every request
carrying page limit 10; and the loop stops exactly at the page that
carries no cursor (the chain hypothesis makes the last page cursorless
and each earlier page cursor-bearing). -/
theorem dashboard_detector_collects_all_pages
    (svc : AuditLogsSearchEventsRequest → AuditLogsSearchEventsResponse)
    (ps : List AuditLogsSearchEventsResponse)
    (hchain : ServesChain svc none ps)
    (hlast : ∀ l, ps.getLast? = some l → extractCursor l = none)
    (hne : ps ≠ []) :
    get_dashboards_created_last_minute svc ps.length = some ((ps.map pageIds).flatten) ∧
    searchLoop svc ps.length none [] [] =
      some ((ps.map pageIds).flatten,
            (none :: ps.dropLast.map extractCursor).map dashboardSearchRequest) ∧
    ∀ tok, (dashboardSearchRequest tok).page = some { limit := 10, cursor := tok } := by
  have h := searchLoop_serves_chain svc ps none [] [] hchain hlast hne
  simp only [List.nil_append] at h
  exact ⟨by simp [get_dashboards_created_last_minute, h], h, fun tok => rfl⟩

/-- First page of the two-page witness chain: two dashboards and a
cursor pointing at the second page. -/
def page1 : AuditLogsSearchEventsResponse :=
  { data := [⟨"d1"⟩, ⟨"d2"⟩], meta := some { page := some { after := some "c1" } } }

/-- Second and last page of the witness chain: one dashboard, no
cursor. -/
def page2 : AuditLogsSearchEventsResponse :=
  { data := [⟨"d3"⟩], meta := some { page := some { after := none } } }

/-- A service serving the two-page chain: the cursorless request gets
page 1, any cursor-bearing request gets page 2. -/
def twoPageSvc : AuditLogsSearchEventsRequest → AuditLogsSearchEventsResponse :=
  fun req =>
    match req.page with
    | none => page1
    | some pg =>
      match pg.cursor with
      | none => page1
      | some _ => page2

/-- Witness for C2: over the concrete two-page chain the detector
collects the three dashboard ids in order. -/
theorem dashboard_detector_collects_all_pages_witness :
    get_dashboards_created_last_minute twoPageSvc 2 = some ["d1", "d2", "d3"] := by
  have hchain : ServesChain twoPageSvc none [page1, page2] := by
    rw [ServesChain]
    refine ⟨rfl, Or.inr ⟨"c1", rfl, ?_⟩⟩
    rw [ServesChain]
    exact ⟨rfl, Or.inl ⟨rfl, rfl⟩⟩
  have hlast : ∀ l, ([page1, page2] : List AuditLogsSearchEventsResponse).getLast? = some l →
      extractCursor l = none := by
    intro l hl
    have : l = page2 := by simpa using hl.symm
    rw [this]
    rfl
  have h := (dashboard_detector_collects_all_pages twoPageSvc [page1, page2] hchain hlast
    (by simp)).1
  simpa [page1, page2, pageIds] using h

/-- With fuel `n + 1` the loop terminates normally as soon as the
cursor orbit reaches a response without a truthy next cursor. -/
theorem searchLoop_isSome_of_eventually_none
    (svc : AuditLogsSearchEventsRequest → AuditLogsSearchEventsResponse) (n : Nat) :
    ∀ tok acc reqs, nextTok svc (iterFrom svc n tok) = none →
      (searchLoop svc (n + 1) tok acc reqs).isSome = true := by
  induction n with
  | zero =>
    intro tok acc reqs h
    simp only [iterFrom, nextTok] at h
    simp [searchLoop, h]
  | succ n ih =>
    intro tok acc reqs h
    simp only [iterFrom] at h
    cases hc : extractCursor (svc (dashboardSearchRequest tok)) with
    | none => simp [searchLoop, hc]
    | some t =>
      have hnt : nextTok svc tok = some t := hc
      rw [hnt] at h
      have hr := ih (some t) (acc ++ (svc (dashboardSearchRequest tok)).data.map AuditEvent.assetId)
        (reqs ++ [dashboardSearchRequest tok]) h
      simpa [searchLoop, hc] using hr

/-- As long as every response along the cursor orbit carries a truthy
next cursor, no amount of fuel makes the loop break: the absence of a
next cursor is the only termination signal. -/
theorem searchLoop_none_of_never_none
    (svc : AuditLogsSearchEventsRequest → AuditLogsSearchEventsResponse) (fuel : Nat) :
    ∀ tok acc reqs, (∀ n, (nextTok svc (iterFrom svc n tok)).isSome = true) →
      searchLoop svc fuel tok acc reqs = none := by
  induction fuel with
  | zero => intro tok acc reqs _; rfl
  | succ fuel ih =>
    intro tok acc reqs h
    have h0 := h 0
    simp only [iterFrom, nextTok] at h0
    cases hc : extractCursor (svc (dashboardSearchRequest tok)) with
    | none => rw [hc] at h0; cases h0
    | some t =>
      have hnt : nextTok svc tok = some t := hc
      have hrec : searchLoop svc fuel (some t)
          (acc ++ (svc (dashboardSearchRequest tok)).data.map AuditEvent.assetId)
          (reqs ++ [dashboardSearchRequest tok]) = none := by
        apply ih
        intro n
        have hn := h (n + 1)
        simp only [iterFrom] at hn
        rwa [hnt] at hn
      simpa [searchLoop, hc] using hrec

/-- C3: the absence of a next cursor is the only termination signal of
the dashboard pagination loop (a service whose cursor orbit always
yields a truthy cursor exhausts any fuel), and under the precondition
that the cursor orbit eventually yields no cursor the loop terminates
(some finite fuel suffices). -/
theorem dashboard_pagination_termination
    (svc : AuditLogsSearchEventsRequest → AuditLogsSearchEventsResponse) :
    ((∀ n, (nextTok svc (iterFrom svc n none)).isSome = true) →
      ∀ fuel, searchLoop svc fuel none [] [] = none) ∧
    ((∃ n, nextTok svc (iterFrom svc n none) = none) →
      ∃ fuel, (searchLoop svc fuel none [] []).isSome = true) := by
  constructor
  · intro h fuel
    exact searchLoop_none_of_never_none svc fuel none [] [] h
  · rintro ⟨n, hn⟩
    exact ⟨n + 1, searchLoop_isSome_of_eventually_none svc n none [] [] hn⟩

/-- A service that always answers with no events and no cursor. -/
def emptyPageSvc : AuditLogsSearchEventsRequest → AuditLogsSearchEventsResponse :=
  fun _ => { data := [], meta := none }

/-- A service that always answers with the same truthy cursor. -/
def endlessSvc : AuditLogsSearchEventsRequest → AuditLogsSearchEventsResponse :=
  fun _ => { data := [], meta := some { page := some { after := some "c" } } }

/-- Witness for C3: the endless service exhausts a fuel of 5, and the
cursorless service terminates with some fuel. -/
theorem dashboard_pagination_termination_witness :
    searchLoop endlessSvc 5 none [] [] = none ∧
    ∃ fuel, (searchLoop emptyPageSvc fuel none [] []).isSome = true :=
  ⟨(dashboard_pagination_termination endlessSvc).1 (fun _ => rfl) 5,
   (dashboard_pagination_termination emptyPageSvc).2 ⟨0, rfl⟩⟩

/-- A team-tag lookup that always raises. -/
def badTag : String → PyResult String := fun _ => PyResult.exn "boom"

/-- A team-tag lookup that always returns the team name `alpha`. -/
def okTag : String → PyResult String := fun _ => PyResult.ok "alpha"

/-- A by-name team lookup that always finds team `t1`. -/
def constTeamByName : String → Option String := fun _ => some "t1"

/-- A by-name team lookup that never finds a team. -/
def noneTeamByName : String → Option String := fun _ => none

/-- A permission writer that always succeeds. -/
def okWriter : String → String → PyResult Unit := fun _ _ => PyResult.ok ()

/-- A permission writer that always raises. -/
def badWriter : String → String → PyResult Unit := fun _ _ => PyResult.exn "boom"

/-- C1 counterexample: in the monitor pipeline there is no per-resource
handler, so an exception raised while processing monitor R1 — by the
team-tag lookup or by the permission writer — prevents the later
monitor R2 of the same batch from being processed, while the same batch
without the exception does reach R2. -/
theorem monitor_exception_aborts_batch :
    Call.monitorTeamLookup "R2" ∉
      lambda_handler_monitor (PyResult.ok ["R1", "R2"]) badTag constTeamByName okWriter ∧
    Call.monitorTeamLookup "R2" ∉
      lambda_handler_monitor (PyResult.ok ["R1", "R2"]) okTag constTeamByName badWriter ∧
    Call.monitorTeamLookup "R2" ∈
      lambda_handler_monitor (PyResult.ok ["R1", "R2"]) okTag constTeamByName okWriter := by
  decide

/-- C1 amended: in the dashboard pipeline any exception raised while
processing one resource id is caught at the per-resource level, so the
trace over a batch splits into independent per-id traces and a later
resource is processed whatever happened to an earlier one; in the
monitor pipeline an exception raised while processing one resource is
caught only at the top level and the remaining resource ids of the
batch are not processed. -/
theorem per_resource_error_isolation
    (creator teamOfUser : String → PyResult (Option String))
    (writer : String → String → PyResult Unit)
    (teamTag : String → PyResult String) (teamByName : String → Option String)
    (mwriter : String → String → PyResult Unit)
    (ids1 ids2 : List String) (r : String) (rest : List String) :
    lambda_handler_dashboard (PyResult.ok (ids1 ++ ids2)) creator teamOfUser writer =
      lambda_handler_dashboard (PyResult.ok ids1) creator teamOfUser writer ++
        lambda_handler_dashboard (PyResult.ok ids2) creator teamOfUser writer ∧
    (∀ e, teamTag r = PyResult.exn e →
      lambda_handler_monitor (PyResult.ok (r :: rest)) teamTag teamByName mwriter =
        [Call.monitorTeamLookup r]) := by
  constructor
  · simp [lambda_handler_dashboard]
  · intro e he
    simp [lambda_handler_monitor, monitorLoop, he]

/-- Witness for the amended C1: a raising team-tag lookup on R1 leaves
only the R1 lookup in the monitor trace. -/
theorem per_resource_error_isolation_witness :
    lambda_handler_monitor (PyResult.ok ["R1", "R2"]) badTag constTeamByName okWriter =
      [Call.monitorTeamLookup "R1"] :=
  (per_resource_error_isolation (fun _ => PyResult.ok none) (fun _ => PyResult.ok none)
      okWriter badTag constTeamByName okWriter [] [] "R1" ["R2"]).2 "boom" rfl

/-- C7: when the owner resolver of the dashboard pipeline yields `None`
for an id, neither the team lookup nor the permission writer is called
for that id and the loop proceeds to the next id; when a team lookup
yields `None`, the permission writer is not called for that resource,
in either pipeline (the monitor loop goes straight on to the remaining
ids).  In the monitor pipeline the owner resolver signals a missing
team tag by raising, never by returning `None`, so the owner-resolver
half is vacuous there. -/
theorem orchestrator_skip_semantics
    (creator teamOfUser : String → PyResult (Option String))
    (writer : String → String → PyResult Unit)
    (teamTag : String → PyResult String) (teamByName : String → Option String)
    (mwriter : String → String → PyResult Unit)
    (d : String) (drest : List String) (m : String) (mrest : List String) :
    (creator d = PyResult.ok none →
      processDashboard creator teamOfUser writer d = [Call.creatorLookup d]) ∧
    (creator d = PyResult.ok none →
      lambda_handler_dashboard (PyResult.ok (d :: drest)) creator teamOfUser writer =
        Call.creatorLookup d ::
          lambda_handler_dashboard (PyResult.ok drest) creator teamOfUser writer) ∧
    (∀ u, creator d = PyResult.ok (some u) → teamOfUser u = PyResult.ok none →
      ∀ t, Call.permWrite t d ∉ processDashboard creator teamOfUser writer d) ∧
    (∀ name, teamTag m = PyResult.ok name → teamByName name = none →
      monitorLoop teamTag teamByName mwriter (m :: mrest) =
        Call.monitorTeamLookup m :: Call.teamByName name ::
          monitorLoop teamTag teamByName mwriter mrest) := by
  refine ⟨?_, ?_, ?_, ?_⟩
  · intro h
    simp [processDashboard, h]
  · intro h
    simp [lambda_handler_dashboard, processDashboard, h]
  · intro u hu ht t
    by_cases hue : u = "" <;> simp [processDashboard, hu, ht, hue]
  · intro name hn ht
    simp [monitorLoop, hn, ht]

/-- Witness for C7 at concrete oracles: a creator lookup that finds no
user leaves only the creator call, and a monitor team name with no
directory match leaves the two lookups and continues. -/
theorem orchestrator_skip_semantics_witness :
    processDashboard (fun _ => PyResult.ok none) (fun _ => PyResult.ok none) okWriter "d1" =
      [Call.creatorLookup "d1"] ∧
    monitorLoop okTag noneTeamByName okWriter ["m1"] =
      [Call.monitorTeamLookup "m1", Call.teamByName "alpha"] := by
  constructor
  · exact (orchestrator_skip_semantics (fun _ => PyResult.ok none) (fun _ => PyResult.ok none)
      okWriter okTag noneTeamByName okWriter "d1" [] "m1" []).1 rfl
  · have h := (orchestrator_skip_semantics (fun _ => PyResult.ok none)
      (fun _ => PyResult.ok none) okWriter okTag noneTeamByName okWriter "d1" [] "m1" []).2.2.2
      "alpha" rfl rfl
    simpa [monitorLoop] using h

end DatadogMonDash
